import Mathlib

/-!
Verification development for a multi-source notice monitor
(`main.py`, `html_scraper.py`, `proxy_pool.py`).

Shallow embedding conventions:
* Calendar dates are modelled as `Int` day numbers; `today - timedelta(days=k)`
  becomes `today - k`.  Date *parsing* (ISO strings, `dateutil` on regex
  groups) is abstracted: an extracted record carries `Option Int`, `none`
  standing for "no regex match / parse raised" (which the code turns into a
  `continue`).  The textual rendering of a date inside an identity string is
  the shared function `dateStr`, standing for Python's `str(date)` — both
  fetch paths render the same date object the same way.
* Python sets of strings are modelled as duplicate-free `List String`
  maintained in insertion order (`addSet`); Python's `list(someSet)` has an
  *arbitrary*, hash-dependent order, so it is modelled as an explicit
  enumeration parameter `listEnum : List String → List String` about which
  the code guarantees only that the result is a permutation of the set's
  elements.
* Fallible I/O (HTTP requests, `.json()`) is modelled as `Except`/`Option`
  inputs; the outcome of the notification collaborator on the k-th send of a
  cycle is an input `sendRes : Nat → Bool`.
-/

/-- LOOKBACK_DAYS from main.py / html_scraper.py. -/
def LOOKBACK_DAYS : Int := 12

/-- SSC_NR_URL constant from main.py. -/
def SSC_NR_URL : String := "https://sscnr.nic.in/newlook/site/Whatsnew.html"

/-- Rendering of a Python `date` object inside an f-string (`str(date)`,
ISO `YYYY-MM-DD`); injective in the date, identical across call sites. -/
def dateStr (d : Int) : String := toString d

/-- Python `str.strip()`: drop leading and trailing whitespace (a
kernel-reducible model of the code's `.strip()`). -/
def pyStrip (s : String) : String :=
  ⟨((s.data.dropWhile Char.isWhitespace).reverse.dropWhile Char.isWhitespace).reverse⟩

/-- Python `s[:n]`: the first `n` characters (code points) of a string. -/
def pyTake (s : String) (n : Nat) : String := ⟨s.data.take n⟩

/-- Python `str.lower()`: character-wise case folding. -/
def pyLower (s : String) : String := ⟨s.data.map Char.toLower⟩

/-- A notice dict as built by the scrapers in main.py / html_scraper.py. -/
structure Notice where
  id : String
  date : Int
  title : String
  link : Option String
  src : String
deriving DecidableEq, Repr

/-- Python `set.add`: insert a string into a set modelled as a
duplicate-free insertion-ordered list. -/
def addSet (x : String) (l : List String) : List String :=
  if x ∈ l then l else l ++ [x]

/-- Python `set(l)`: collapse a list to its set of elements. -/
def dedup (l : List String) : List String :=
  l.foldl (fun acc x => addSet x acc) []

/-- Python `l[-k:]`: the last `k` elements of a list. -/
def lastN (k : Nat) (l : List α) : List α :=
  l.drop (l.length - k)

/-- Notice built by `scrape_main_api` (main.py lines 152-162): the title has
already been `.strip()`ped by the loop; `fileUrl` empty means no link. -/
def apiNotice (d : Int) (title fileUrl : String) : Notice :=
  { id := "main-" ++ dateStr d ++ "-" ++ pyTake title 80
  , date := d
  , title := title
  , link := if fileUrl = "" then none else some ("https://ssc.gov.in" ++ fileUrl)
  , src := "Main SSC" }

/-- Notice built by `html_scraper._parse_html` (html_scraper.py lines 62-72). -/
def htmlNotice (d : Int) (title : String) (link : Option String) : Notice :=
  { id := "main-" ++ dateStr d ++ "-" ++ pyTake title 80
  , date := d
  , title := title
  , link := link
  , src := "Main SSC" }

/-- Notice built by the Selenium fallback `scrape_main_html`
(main.py lines 211-219). -/
def selNotice (d : Int) (title : String) (link : Option String) : Notice :=
  { id := "main-" ++ dateStr d ++ "-" ++ pyTake title 80
  , date := d
  , title := title
  , link := link
  , src := "Main SSC" }

/-- Notice built by `scrape_nr` (main.py lines 280-288). -/
def nrNotice (d : Int) (title : String) : Notice :=
  { id := "nr-" ++ dateStr d ++ "-" ++ pyTake title 80
  , date := d
  , title := title
  , link := some SSC_NR_URL
  , src := "SSC NR" }

/-- One record of the JSON API response: `createdOn` abstracted to the
parsed date (`none` = `datetime.fromisoformat` raised, caught by the inner
`except: continue`); `fileUrl` with `.get` default `""`. -/
structure ApiItem where
  createdOn : Option Int
  title : String
  fileUrl : String
deriving DecidableEq, Repr

/-- The record loop of `scrape_main_api` (main.py lines 141-164): a record
older than the cutoff BREAKS the loop; an unparseable date or an empty
stripped title is a `continue`. -/
def apiLoop (cutoff : Int) : List ApiItem → List Notice
  | [] => []
  | item :: rest =>
    match item.createdOn with
    | none => apiLoop cutoff rest
    | some d =>
      if d < cutoff then []
      else
        if pyStrip item.title = "" then apiLoop cutoff rest
        else apiNotice d (pyStrip item.title) item.fileUrl :: apiLoop cutoff rest

/-- The JSON body of the API response; `content` is `none` when the key is
absent (`data.get("content", [])` then yields the empty list). -/
structure ApiResponse where
  content : Option (List ApiItem)
deriving Repr

/-- `scrape_main_api` (main.py lines 124-171): any raised exception
(network error, timeout, bad HTTP status via `raise_for_status`, non-JSON
body) is caught and the function returns `None`, the signal to fall back;
otherwise it iterates `data.get("content", [])` and returns the list. -/
def scrape_main_api (resp : Except String ApiResponse) (today : Int) :
    Option (List Notice) :=
  match resp with
  | .error _ => none
  | .ok data => some (apiLoop (today - LOOKBACK_DAYS) (data.content.getD []))

/-- `scrape_main` (main.py lines 233-241): try the API; only a `None`
result (an exception inside `scrape_main_api`) triggers the HTML fallback,
whose result is modelled as the input `htmlResult`. -/
def scrape_main (resp : Except String ApiResponse) (today : Int)
    (htmlResult : List Notice) : List Notice :=
  match scrape_main_api resp today with
  | some r => r
  | none => htmlResult

/-- One `div.flex` row as seen by `_parse_html` (html_scraper.py):
`present` = both `div.leftSection` and the title element were found;
`dateM` = the `DATE_RE` match on the left text parsed by `dtparse`
(`none` when the regex does not match); `title` = the stripped title text. -/
structure HtmlRow where
  present : Bool
  dateM : Option Int
  title : String
  pdfHref : Option String
deriving DecidableEq, Repr

/-- The row loop of `_parse_html` (html_scraper.py lines 45-72): rows with
missing elements, unmatched dates, stale dates or empty titles are skipped
(`continue`), never a break. -/
def parseHtmlLoop (cutoff : Int) : List HtmlRow → List Notice
  | [] => []
  | row :: rest =>
    if row.present then
      match row.dateM with
      | none => parseHtmlLoop cutoff rest
      | some d =>
        if d < cutoff then parseHtmlLoop cutoff rest
        else
          if row.title = "" then parseHtmlLoop cutoff rest
          else htmlNotice d row.title row.pdfHref :: parseHtmlLoop cutoff rest
    else parseHtmlLoop cutoff rest

/-- One line of the NR page source as seen by `scrape_nr` (main.py):
`dateM` = the `DATE_RE_NR` match parsed by `dtparse` (`none` when the line
is blank, the regex does not match, or parsing raised); `cleanTitle` = the
line after tag and bracket stripping and `.strip()`. -/
structure NrLine where
  dateM : Option Int
  cleanTitle : String
deriving DecidableEq, Repr

/-- The line loop of `scrape_nr` (main.py lines 262-290): stale dates and
titles shorter than 10 characters are skipped (`continue`). -/
def nrLoop (cutoff : Int) : List NrLine → List Notice
  | [] => []
  | ln :: rest =>
    match ln.dateM with
    | none => nrLoop cutoff rest
    | some d =>
      if d < cutoff then nrLoop cutoff rest
      else
        if ln.cleanTitle.length < 10 then nrLoop cutoff rest
        else nrNotice d ln.cleanTitle :: nrLoop cutoff rest

/-- Result of the delivery loop of `monitor_cycle`: the two in-memory seen
sets and the number of `send_telegram` calls made. -/
structure CycleSets where
  mainIds : List String
  nrIds : List String
  attempts : Nat
deriving Repr

/-- The delivery loop of `monitor_cycle` (main.py lines 337-343): one
`send_telegram` call per new notice; on success (the k-th call's outcome is
`sendRes k`) the id is added to the seen set matching the notice's `src`
field; on failure nothing is recorded and the loop continues. -/
def sendLoop (sendRes : Nat → Bool) (k : Nat) (ns : List Notice)
    (sm sn : List String) : CycleSets :=
  match ns with
  | [] => ⟨sm, sn, 0⟩
  | n :: rest =>
    let res :=
      if sendRes k then
        if n.src = "Main SSC" then sendLoop sendRes (k + 1) rest (addSet n.id sm) sn
        else sendLoop sendRes (k + 1) rest sm (addSet n.id sn)
      else sendLoop sendRes (k + 1) rest sm sn
    ⟨res.mainIds, res.nrIds, res.attempts + 1⟩

/-- The "new" partition of `monitor_cycle` (main.py lines 330-331):
candidates whose id is not in the seen set, computed once, before any
delivery. -/
def newNotices (seen : List String) (notices : List Notice) : List Notice :=
  notices.filter (fun n => !(seen.contains n.id))

/-- `monitor_cycle` (main.py lines 311-348).  `stateMain`/`stateNr` are the
loaded persisted lists, `mainNotices`/`nrNotices` the scraper outputs,
`sendRes` the per-call collaborator outcomes, and `listEnum` the arbitrary
enumeration Python's `list(set)` uses (only guaranteed to be a permutation).
Returns the persisted `(state["main"], state["nr"])` pair, each truncated by
`[-500:]`. -/
def monitor_cycle (sendRes : Nat → Bool) (listEnum : List String → List String)
    (stateMain stateNr : List String) (mainNotices nrNotices : List Notice) :
    List String × List String :=
  let sent_main := dedup stateMain
  let sent_nr := dedup stateNr
  let main_new := newNotices sent_main mainNotices
  let nr_new := newNotices sent_nr nrNotices
  let r := sendLoop sendRes 0 (main_new ++ nr_new) sent_main sent_nr
  (lastN 500 (listEnum r.mainIds), lastN 500 (listEnum r.nrIds))

/-!
Relay pool model (`proxy_pool.py`).
-/

namespace proxy_pool

/-- MAX_TEST constant (`_MAX_TEST`) from proxy_pool.py. -/
def MAX_TEST : Nat := 500

/-- MAX_GOOD constant (`_MAX_GOOD`) from proxy_pool.py. -/
def MAX_GOOD : Nat := 50

/-- REFRESH_EVERY constant (`_REFRESH_EVERY`) from proxy_pool.py. -/
def REFRESH_EVERY : Int := 3600

/-- PROXY_SOURCES from proxy_pool.py: the first two entries are the narrow,
India-filtered feeds, the next two the global fallbacks, the last two
alternative sources. -/
def PROXY_SOURCES : List String :=
  [ "https://api.proxyscrape.com/v2/?request=getproxies&protocol=http&country=IN&timeout=7000&format=txt"
  , "https://api.proxyscrape.com/v2/?request=getproxies&protocol=https&country=IN&timeout=7000&format=txt"
  , "https://api.proxyscrape.com/v2/?request=getproxies&protocol=http&timeout=7000&format=txt"
  , "https://api.proxyscrape.com/v2/?request=getproxies&protocol=https&timeout=7000&format=txt"
  , "https://proxyelite.info/http_proxies.txt"
  , "https://spys.me/proxy.txt" ]

/-- Substring test `"socks" in raw.lower()` from `_grab`. -/
def socksIn (s : String) : Bool :=
  decide ("socks".data <:+: (pyLower s).data)

/-- Substring test `"://" in raw` from `_grab`. -/
def schemeIn (s : String) : Bool :=
  decide ("://".data <:+: s.data)

/-- Normalisation of one feed line in `_grab` (proxy_pool.py lines 53-60):
strip, drop blank and socks-tagged lines, prefix a missing scheme. -/
def normLine (raw : String) : Option String :=
  let r := pyStrip raw
  if r = "" then none
  else if socksIn r then none
  else if schemeIn r then some r
  else some ("http://" ++ r)

/-- Accumulate one feed's lines into the `found` set of `_grab`. -/
def grabFeed (found : List String) (lines : List String) : List String :=
  lines.foldl
    (fun acc raw =>
      match normLine raw with
      | none => acc
      | some a => addSet a acc) found

/-- Processing of one feed URL inside `_grab`: a fetch that raises
(`fetchRes u = none`) is logged and skipped, otherwise the feed's lines are
accumulated. -/
def grabStep (fetchRes : String → Option (List String))
    (acc : List String) (u : String) : List String :=
  match fetchRes u with
  | none => acc
  | some lines => grabFeed acc lines

/-- `_grab(urls)` (proxy_pool.py lines 40-70): all feeds are processed
unconditionally, in order, and their normalised lines are unioned into one
set. -/
def grab (fetchRes : String → Option (List String)) (urls : List String) :
    List String :=
  urls.foldl (grabStep fetchRes) []

/-- Pool state of proxy_pool.py: `_good`, `_bad`, `_last_refresh`. -/
structure Pool where
  good : List String
  bad : List String
  lastRefresh : Int
deriving Repr

/-- The verification loop of `_refresh` (proxy_pool.py lines 93-104):
append each candidate passing `_is_https_ok` (outcome `ok p`), breaking as
soon as the good list reaches `MAX_GOOD`; `count` is the length of the good
list accumulated so far. -/
def refreshLoop (ok : String → Bool) (count : Nat) : List String → List String
  | [] => []
  | p :: rest =>
    if ok p then
      if MAX_GOOD ≤ count + 1 then [p]
      else p :: refreshLoop ok (count + 1) rest
    else refreshLoop ok count rest

/-- `_refresh` (proxy_pool.py lines 84-106): stamp the generation, clear the
banned set, grab candidates from all feeds, cap at `MAX_TEST`, verify in
order until `MAX_GOOD` verified relays are found or candidates run out. -/
def refresh (fetchRes : String → Option (List String)) (ok : String → Bool)
    (now : Int) : Pool :=
  let cand := (grab fetchRes PROXY_SOURCES).take MAX_TEST
  { good := refreshLoop ok 0 cand, bad := [], lastRefresh := now }

/-- `_refresh_if_needed` (proxy_pool.py lines 109-111): rebuild when the
good list is empty or the generation is older than `REFRESH_EVERY`. -/
def refresh_if_needed (fetchRes : String → Option (List String))
    (ok : String → Bool) (now : Int) (p : Pool) : Pool :=
  if p.good = [] ∨ REFRESH_EVERY < now - p.lastRefresh then refresh fetchRes ok now
  else p

/-- `get` (proxy_pool.py lines 115-118): refresh if needed, then return a
random element of `_good` (the random draw is modelled by the index `idx`,
reduced mod the list length) or `none` when the list is empty. -/
def get (fetchRes : String → Option (List String)) (ok : String → Bool)
    (now : Int) (idx : Nat) (p : Pool) : Option String × Pool :=
  let p2 := refresh_if_needed fetchRes ok now p
  if h : p2.good.length = 0 then (none, p2)
  else (some (p2.good.get ⟨idx % p2.good.length, Nat.mod_lt idx (Nat.pos_of_ne_zero h)⟩), p2)

/-- `ban` (proxy_pool.py lines 121-126): add to `_bad`, and remove from
`_good` when present (`list.remove` drops the first occurrence). -/
def ban (proxy : String) (p : Pool) : Pool :=
  { good := if proxy ∈ p.good then p.good.erase proxy else p.good
  , bad := addSet proxy p.bad
  , lastRefresh := p.lastRefresh }

end proxy_pool

/-- Feed outcomes exercising `_grab`'s feed handling: the first narrow
India-filtered feed yields one candidate, the first global fallback feed
yields a different one, all other feeds come back empty. -/
def c9FetchRes (u : String) : Option (List String) :=
  if u = "https://api.proxyscrape.com/v2/?request=getproxies&protocol=http&country=IN&timeout=7000&format=txt"
  then some ["1.1.1.1:8080"]
  else if u = "https://api.proxyscrape.com/v2/?request=getproxies&protocol=http&timeout=7000&format=txt"
  then some ["2.2.2.2:8080"]
  else some []

/-- Identity number `i` of the pre-existing persisted state used to
exercise the eviction slice (500 distinct identities). -/
def c3Id (i : Nat) : String := ⟨List.replicate (i + 1) 'a'⟩

/-- A persisted "main" identity list already holding 500 entries, inserted
in the order `c3Id 0`, `c3Id 1`, ... -/
def c3State : List String := (List.range 500).map c3Id

/-- The one new notice fetched and delivered during the eviction cycle. -/
def c3Notice : Notice := apiNotice 0 "Scaling Eviction Notice" ""


/-!
Helper lemmas about the set model.
-/

theorem mem_addSet {a x : String} {l : List String} :
    a ∈ addSet x l ↔ a = x ∨ a ∈ l := by
  unfold addSet
  by_cases h : x ∈ l
  · simp only [if_pos h]
    constructor
    · exact Or.inr
    · rintro (rfl | ha)
      · exact h
      · exact ha
  · simp [if_neg h, or_comm]

theorem addSet_of_not_mem {x : String} {l : List String} (h : x ∉ l) :
    addSet x l = l ++ [x] := by
  simp [addSet, h]

theorem nodup_addSet {x : String} {l : List String} (h : l.Nodup) :
    (addSet x l).Nodup := by
  unfold addSet
  by_cases hx : x ∈ l
  · simpa [hx]
  · rw [if_neg hx, List.nodup_append]
    refine ⟨h, List.nodup_singleton x, ?_⟩
    intro a ha hb
    rw [List.mem_singleton] at hb
    exact hx (hb ▸ ha)

theorem length_addSet (x : String) (l : List String) :
    (addSet x l).length ≤ l.length + 1 := by
  unfold addSet
  by_cases hx : x ∈ l <;> simp [hx]

theorem foldl_addSet_mem (l : List String) :
    ∀ (acc : List String) (a : String),
      (a ∈ l.foldl (fun acc x => addSet x acc) acc ↔ a ∈ acc ∨ a ∈ l) := by
  induction l with
  | nil => simp
  | cons x rest ih =>
    intro acc a
    simp only [List.foldl_cons, ih, mem_addSet, List.mem_cons]
    tauto

theorem foldl_addSet_nodup (l : List String) :
    ∀ acc : List String, acc.Nodup →
      (l.foldl (fun acc x => addSet x acc) acc).Nodup := by
  induction l with
  | nil => simpa
  | cons x rest ih =>
    intro acc hacc
    exact ih (addSet x acc) (nodup_addSet hacc)

theorem foldl_addSet_length (l : List String) :
    ∀ acc : List String,
      (l.foldl (fun acc x => addSet x acc) acc).length ≤ acc.length + l.length := by
  induction l with
  | nil => simp
  | cons x rest ih =>
    intro acc
    calc (List.foldl (fun acc x => addSet x acc) (addSet x acc) rest).length
        ≤ (addSet x acc).length + rest.length := ih (addSet x acc)
      _ ≤ (acc.length + 1) + rest.length :=
          Nat.add_le_add_right (length_addSet x acc) _
      _ = acc.length + (x :: rest).length := by simp; omega

theorem foldl_addSet_of_append_nodup (l : List String) :
    ∀ acc : List String, (acc ++ l).Nodup →
      l.foldl (fun acc x => addSet x acc) acc = acc ++ l := by
  induction l with
  | nil => simp
  | cons x rest ih =>
    intro acc hnd
    have hx : x ∉ acc := by
      intro hmem
      have := List.disjoint_of_nodup_append hnd hmem
      simp at this
    have h1 : addSet x acc = acc ++ [x] := addSet_of_not_mem hx
    have h2 : ((acc ++ [x]) ++ rest).Nodup := by
      simpa [List.append_assoc] using hnd
    calc (x :: rest).foldl (fun acc x => addSet x acc) acc
        = rest.foldl (fun acc x => addSet x acc) (acc ++ [x]) := by
          simp [List.foldl_cons, h1]
      _ = (acc ++ [x]) ++ rest := ih (acc ++ [x]) h2
      _ = acc ++ x :: rest := by simp [List.append_assoc]

theorem mem_dedup {a : String} {l : List String} : a ∈ dedup l ↔ a ∈ l := by
  simp [dedup, foldl_addSet_mem]

theorem nodup_dedup (l : List String) : (dedup l).Nodup :=
  foldl_addSet_nodup l [] List.nodup_nil

theorem dedup_length_le (l : List String) : (dedup l).length ≤ l.length := by
  simpa using foldl_addSet_length l []

theorem dedup_eq_self {l : List String} (h : l.Nodup) : dedup l = l := by
  simpa using foldl_addSet_of_append_nodup l [] (by simpa)

theorem length_lastN (k : Nat) (l : List α) : (lastN k l).length ≤ k := by
  simp [lastN]
  omega

theorem lastN_of_length_le {k : Nat} {l : List α} (h : l.length ≤ k) :
    lastN k l = l := by
  have : l.length - k = 0 := by omega
  simp [lastN, this]

theorem sendLoop_attempts (sendRes : Nat → Bool) :
    ∀ (ns : List Notice) (k : Nat) (sm sn : List String),
      (sendLoop sendRes k ns sm sn).attempts = ns.length := by
  intro ns
  induction ns with
  | nil => intro k sm sn; rfl
  | cons n rest ih =>
    intro k sm sn
    simp only [sendLoop, List.length_cons]
    split <;> [skip; rw [ih]] <;> split <;> rw [ih]

/-- C2: after every monitor cycle, the persisted identity list of each
source ("main" and "nr") has length at most 500 — the `[-500:]` slice
bounds both, whatever the scrapers returned, whatever the collaborator
did, and whatever enumeration order Python's `list(set)` used. -/
theorem C2_state_bounded (sendRes : Nat → Bool)
    (listEnum : List String → List String) (stateMain stateNr : List String)
    (mainNotices nrNotices : List Notice) :
    (monitor_cycle sendRes listEnum stateMain stateNr mainNotices nrNotices).1.length ≤ 500 ∧
    (monitor_cycle sendRes listEnum stateMain stateNr mainNotices nrNotices).2.length ≤ 500 := by
  simp only [monitor_cycle]
  exact ⟨length_lastN 500 _, length_lastN 500 _⟩

/-- C4: notice identity is source-tag + "-" + date + "-" + first 80 title
characters, so two notices of the main source with the same date and the
same 80-character title prefix get the same identity whichever fetch path
(JSON API, requests+BeautifulSoup static fetch, Selenium rendered fetch)
built them. -/
theorem C4_identity_deterministic (d : Int) (t1 t2 u : String)
    (l1 l2 : Option String) (h : pyTake t1 80 = pyTake t2 80) :
    (apiNotice d t1 u).id = (htmlNotice d t2 l1).id ∧
    (apiNotice d t1 u).id = (selNotice d t2 l2).id ∧
    (htmlNotice d t1 l1).id = (selNotice d t2 l2).id ∧
    (apiNotice d t1 u).id = "main-" ++ dateStr d ++ "-" ++ pyTake t1 80 := by
  simp [apiNotice, htmlNotice, selNotice, h]

/-- Witness for C4 at a concrete date and title. -/
theorem C4_identity_deterministic_witness :
    (apiNotice 20250901 "Combined Graduate Level Examination 2025 Notice" "/f.pdf").id
      = (htmlNotice 20250901 "Combined Graduate Level Examination 2025 Notice" (some "a.pdf")).id ∧
    (apiNotice 20250901 "Combined Graduate Level Examination 2025 Notice" "/f.pdf").id
      = (selNotice 20250901 "Combined Graduate Level Examination 2025 Notice" none).id ∧
    (htmlNotice 20250901 "Combined Graduate Level Examination 2025 Notice" (some "a.pdf")).id
      = (selNotice 20250901 "Combined Graduate Level Examination 2025 Notice" none).id ∧
    (apiNotice 20250901 "Combined Graduate Level Examination 2025 Notice" "/f.pdf").id
      = "main-" ++ dateStr 20250901 ++ "-"
          ++ pyTake "Combined Graduate Level Examination 2025 Notice" 80 :=
  C4_identity_deterministic 20250901
    "Combined Graduate Level Examination 2025 Notice"
    "Combined Graduate Level Examination 2025 Notice" "/f.pdf"
    (some "a.pdf") none rfl

/-- C7: in each extraction path (JSON API loop, BeautifulSoup row loop, NR
line loop) the lookback filter `date < cutoff` with
`cutoff = today - LOOKBACK_DAYS` is inclusive at the boundary: a notice
dated exactly `today - 12` is retained and one dated `today - 13` is
dropped. -/
theorem C7_lookback_boundary :
    (∀ (today : Int) (t u : String), pyStrip t ≠ "" →
      apiLoop (today - LOOKBACK_DAYS) [⟨some (today - LOOKBACK_DAYS), t, u⟩] =
        [apiNotice (today - LOOKBACK_DAYS) (pyStrip t) u]) ∧
    (∀ (today : Int) (t u : String),
      apiLoop (today - LOOKBACK_DAYS) [⟨some (today - LOOKBACK_DAYS - 1), t, u⟩] = []) ∧
    (∀ (today : Int) (t : String) (lnk : Option String), t ≠ "" →
      parseHtmlLoop (today - LOOKBACK_DAYS) [⟨true, some (today - LOOKBACK_DAYS), t, lnk⟩] =
        [htmlNotice (today - LOOKBACK_DAYS) t lnk]) ∧
    (∀ (today : Int) (t : String) (lnk : Option String),
      parseHtmlLoop (today - LOOKBACK_DAYS) [⟨true, some (today - LOOKBACK_DAYS - 1), t, lnk⟩] = []) ∧
    (∀ (today : Int) (t : String), 10 ≤ t.length →
      nrLoop (today - LOOKBACK_DAYS) [⟨some (today - LOOKBACK_DAYS), t⟩] =
        [nrNotice (today - LOOKBACK_DAYS) t]) ∧
    (∀ (today : Int) (t : String),
      nrLoop (today - LOOKBACK_DAYS) [⟨some (today - LOOKBACK_DAYS - 1), t⟩] = []) := by
  refine ⟨?_, ?_, ?_, ?_, ?_, ?_⟩
  · intro today t u ht
    simp [apiLoop, ht]
  · intro today t u
    have hlt : today - LOOKBACK_DAYS - 1 < today - LOOKBACK_DAYS := by omega
    simp [apiLoop, hlt]
  · intro today t lnk ht
    simp [parseHtmlLoop, ht]
  · intro today t lnk
    have hlt : today - LOOKBACK_DAYS - 1 < today - LOOKBACK_DAYS := by omega
    simp [parseHtmlLoop, hlt]
  · intro today t ht
    simp [nrLoop, Nat.not_lt.mpr ht]
  · intro today t
    have hlt : today - LOOKBACK_DAYS - 1 < today - LOOKBACK_DAYS := by omega
    simp [nrLoop, hlt]

/-- Witness for C7 at a concrete day number and concrete titles. -/
theorem C7_lookback_boundary_witness :
    apiLoop (900 - LOOKBACK_DAYS) [⟨some (900 - LOOKBACK_DAYS), "Departmental Exam Notice", "/d.pdf"⟩] =
      [apiNotice (900 - LOOKBACK_DAYS) (pyStrip "Departmental Exam Notice") "/d.pdf"] ∧
    apiLoop (900 - LOOKBACK_DAYS) [⟨some (900 - LOOKBACK_DAYS - 1), "Departmental Exam Notice", "/d.pdf"⟩] = [] ∧
    parseHtmlLoop (900 - LOOKBACK_DAYS) [⟨true, some (900 - LOOKBACK_DAYS), "Departmental Exam Notice", none⟩] =
      [htmlNotice (900 - LOOKBACK_DAYS) "Departmental Exam Notice" none] ∧
    parseHtmlLoop (900 - LOOKBACK_DAYS) [⟨true, some (900 - LOOKBACK_DAYS - 1), "Departmental Exam Notice", none⟩] = [] ∧
    nrLoop (900 - LOOKBACK_DAYS) [⟨some (900 - LOOKBACK_DAYS), "Departmental Exam Notice"⟩] =
      [nrNotice (900 - LOOKBACK_DAYS) "Departmental Exam Notice"] ∧
    nrLoop (900 - LOOKBACK_DAYS) [⟨some (900 - LOOKBACK_DAYS - 1), "Departmental Exam Notice"⟩] = [] :=
  ⟨C7_lookback_boundary.1 900 "Departmental Exam Notice" "/d.pdf" (by decide),
   C7_lookback_boundary.2.1 900 "Departmental Exam Notice" "/d.pdf",
   C7_lookback_boundary.2.2.1 900 "Departmental Exam Notice" none (by decide),
   C7_lookback_boundary.2.2.2.1 900 "Departmental Exam Notice" none,
   C7_lookback_boundary.2.2.2.2.1 900 "Departmental Exam Notice" (by decide),
   C7_lookback_boundary.2.2.2.2.2 900 "Departmental Exam Notice"⟩

/-- C6: the API record loop breaks at the first record older than the
cutoff: the output is unchanged whatever follows that record (so later
records are neither inspected nor emitted), and on the spec's scenario
(records dated today, today-1, today-20 with horizon 12, today taken as
day 0) exactly the first two notices are produced. -/
theorem C6_api_early_exit :
    (∀ (cutoff : Int) (pre : List ApiItem) (item : ApiItem) (d : Int)
        (rest rest2 : List ApiItem),
        item.createdOn = some d → d < cutoff →
        apiLoop cutoff (pre ++ item :: rest) = apiLoop cutoff (pre ++ item :: rest2)) ∧
    apiLoop (0 - LOOKBACK_DAYS)
      [⟨some 0, "Scenario Notice One", "/one.pdf"⟩,
       ⟨some (-1), "Scenario Notice Two", ""⟩,
       ⟨some (-20), "Scenario Notice Three", "/three.pdf"⟩] =
      [apiNotice 0 "Scenario Notice One" "/one.pdf",
       apiNotice (-1) "Scenario Notice Two" ""] := by
  constructor
  · intro cutoff pre item d rest rest2 hco hd
    induction pre with
    | nil =>
      simp only [List.nil_append, apiLoop, hco, if_pos hd]
    | cons x xs ih =>
      simp only [List.cons_append, apiLoop]
      cases hx : x.createdOn with
      | none => exact ih
      | some dx =>
        by_cases hlt : dx < cutoff
        · simp [hlt]
        · by_cases ht : pyStrip x.title = "" <;> simp [hlt, ht, ih]
  · decide

/-- Witness for C6: instantiating the early-exit half at a stale record
with two different continuations. -/
theorem C6_api_early_exit_witness :
    apiLoop (0 - LOOKBACK_DAYS)
      ([⟨some 0, "Scenario Notice One", "/one.pdf"⟩] ++
        ⟨some (-20), "Scenario Notice Three", "/three.pdf"⟩ ::
          [⟨some 0, "Hidden Later Notice", ""⟩]) =
    apiLoop (0 - LOOKBACK_DAYS)
      ([⟨some 0, "Scenario Notice One", "/one.pdf"⟩] ++
        ⟨some (-20), "Scenario Notice Three", "/three.pdf"⟩ :: []) :=
  C6_api_early_exit.1 (0 - LOOKBACK_DAYS)
    [⟨some 0, "Scenario Notice One", "/one.pdf"⟩]
    ⟨some (-20), "Scenario Notice Three", "/three.pdf"⟩ (-20)
    [⟨some 0, "Hidden Later Notice", ""⟩] [] rfl (by decide)

/-- C8 counterexample: a well-formed JSON response without the "content"
field does NOT produce the fallback-triggering failure signal — the code's
`data.get("content", [])` turns it into a successful empty scrape, and
`scrape_main` then ignores the HTML fallback entirely. -/
theorem C8_missing_content_is_success :
    scrape_main_api (Except.ok ⟨none⟩) 0 = some [] ∧
    scrape_main_api (Except.ok ⟨none⟩) 0 ≠ none ∧
    scrape_main (Except.ok ⟨none⟩) 0 [nrNotice 0 "Fallback Result Notice"] = [] :=
  ⟨rfl, by decide, rfl⟩

/-- C8 amended: the structured-API strategy returns the failure signal
(None) exactly when a Python exception is raised (network error, timeout,
bad HTTP status, non-JSON body); a JSON body whose list-of-records field is
missing is treated as an empty record list and returned as a SUCCESS, and
`scrape_main` consults the HTML fallback exactly when the API returned the
failure signal. -/
theorem C8_amended_api_failure_contract :
    (∀ (e : String) (today : Int), scrape_main_api (Except.error e) today = none) ∧
    (∀ (resp : ApiResponse) (today : Int), resp.content = none →
        scrape_main_api (Except.ok resp) today = some []) ∧
    (∀ (resp : Except String ApiResponse) (today : Int) (fb : List Notice),
        scrape_main resp today fb = (scrape_main_api resp today).getD fb) := by
  refine ⟨fun e today => rfl, ?_, ?_⟩
  · intro resp today h
    simp [scrape_main_api, h, apiLoop]
  · intro resp today fb
    unfold scrape_main
    cases hr : scrape_main_api resp today <;> simp [hr]

/-- Witness for the amended C8 contract at a concrete response. -/
theorem C8_amended_api_failure_contract_witness :
    scrape_main_api (Except.ok ⟨none⟩) 77 = some [] :=
  C8_amended_api_failure_contract.2.1 ⟨none⟩ 77 rfl

namespace proxy_pool

/-!
Helper lemmas about the relay pool.
-/

theorem grabFeed_mem (lines : List String) :
    ∀ (acc : List String) (a : String),
      a ∈ grabFeed acc lines ↔ a ∈ acc ∨ ∃ raw ∈ lines, normLine raw = some a := by
  induction lines with
  | nil => simp [grabFeed]
  | cons raw rest ih =>
    intro acc a
    have hstep : grabFeed acc (raw :: rest) =
        grabFeed (match normLine raw with | none => acc | some b => addSet b acc) rest := by
      cases hn : normLine raw <;> simp [grabFeed, hn]
    cases hn : normLine raw with
    | none =>
      rw [hstep, hn, ih]
      simp only [List.mem_cons]
      constructor
      · rintro (ha | ⟨r, hr, hnr⟩)
        · exact Or.inl ha
        · exact Or.inr ⟨r, Or.inr hr, hnr⟩
      · rintro (ha | ⟨r, (rfl | hr), hnr⟩)
        · exact Or.inl ha
        · rw [hn] at hnr; cases hnr
        · exact Or.inr ⟨r, hr, hnr⟩
    | some b =>
      rw [hstep, hn, ih]
      simp only [mem_addSet, List.mem_cons]
      constructor
      · rintro ((rfl | ha) | ⟨r, hr, hnr⟩)
        · exact Or.inr ⟨raw, Or.inl rfl, hn⟩
        · exact Or.inl ha
        · exact Or.inr ⟨r, Or.inr hr, hnr⟩
      · rintro (ha | ⟨r, (rfl | hr), hnr⟩)
        · exact Or.inl (Or.inr ha)
        · rw [hn] at hnr
          exact Or.inl (Or.inl (Option.some.inj hnr).symm)
        · exact Or.inr ⟨r, hr, hnr⟩

theorem grabFeed_nodup (lines : List String) :
    ∀ acc : List String, acc.Nodup → (grabFeed acc lines).Nodup := by
  induction lines with
  | nil => simpa [grabFeed]
  | cons raw rest ih =>
    intro acc hacc
    have hstep : grabFeed acc (raw :: rest) =
        grabFeed (match normLine raw with | none => acc | some b => addSet b acc) rest := by
      cases hn : normLine raw <;> simp [grabFeed, hn]
    rw [hstep]
    cases hn : normLine raw with
    | none => exact ih acc hacc
    | some b => exact ih (addSet b acc) (nodup_addSet hacc)

theorem grabStep_mem (fetchRes : String → Option (List String))
    (acc : List String) (u : String) (a : String) :
    a ∈ grabStep fetchRes acc u ↔
      a ∈ acc ∨ ∃ lines, fetchRes u = some lines ∧ ∃ raw ∈ lines, normLine raw = some a := by
  cases hf : fetchRes u <;> simp [grabStep, hf, grabFeed_mem]

theorem grabStep_nodup (fetchRes : String → Option (List String))
    (acc : List String) (u : String) (h : acc.Nodup) :
    (grabStep fetchRes acc u).Nodup := by
  cases hf : fetchRes u
  · simpa [grabStep, hf]
  · simpa [grabStep, hf] using grabFeed_nodup _ acc h

theorem grab_aux_mem (fetchRes : String → Option (List String)) (urls : List String) :
    ∀ (acc : List String) (a : String),
      a ∈ urls.foldl (grabStep fetchRes) acc ↔
        a ∈ acc ∨ ∃ u ∈ urls, ∃ lines, fetchRes u = some lines ∧
          ∃ raw ∈ lines, normLine raw = some a := by
  induction urls with
  | nil => simp
  | cons u us ih =>
    intro acc a
    rw [List.foldl_cons, ih, grabStep_mem]
    simp only [List.mem_cons]
    constructor
    · rintro ((ha | ⟨lines, hl, hr⟩) | ⟨v, hv, hrest⟩)
      · exact Or.inl ha
      · exact Or.inr ⟨u, Or.inl rfl, lines, hl, hr⟩
      · exact Or.inr ⟨v, Or.inr hv, hrest⟩
    · rintro (ha | ⟨v, (rfl | hv), hrest⟩)
      · exact Or.inl (Or.inl ha)
      · exact Or.inl (Or.inr hrest)
      · exact Or.inr ⟨v, hv, hrest⟩

theorem grab_mem (fetchRes : String → Option (List String)) (urls : List String)
    (a : String) :
    a ∈ grab fetchRes urls ↔
      ∃ u ∈ urls, ∃ lines, fetchRes u = some lines ∧
        ∃ raw ∈ lines, normLine raw = some a := by
  rw [grab, grab_aux_mem]
  simp

theorem grab_nodup (fetchRes : String → Option (List String)) (urls : List String) :
    (grab fetchRes urls).Nodup := by
  rw [grab]
  have : ∀ acc : List String, acc.Nodup → (urls.foldl (grabStep fetchRes) acc).Nodup := by
    induction urls with
    | nil => simpa
    | cons u us ih =>
      intro acc hacc
      exact ih _ (grabStep_nodup fetchRes acc u hacc)
  exact this [] List.nodup_nil

theorem refreshLoop_eq (ok : String → Bool) :
    ∀ (l : List String) (c : Nat), c < MAX_GOOD →
      refreshLoop ok c l = (l.filter ok).take (MAX_GOOD - c) := by
  intro l
  induction l with
  | nil => simp [refreshLoop]
  | cons p rest ih =>
    intro c hc
    by_cases hp : ok p
    · by_cases h50 : MAX_GOOD ≤ c + 1
      · have hone : MAX_GOOD - c = 1 := by omega
        simp [refreshLoop, hp, h50, List.filter_cons, hone]
      · have hsplit : MAX_GOOD - c = (MAX_GOOD - (c + 1)) + 1 := by omega
        simp [refreshLoop, hp, h50, List.filter_cons, hsplit,
          ih (c + 1) (by omega)]
    · simp [refreshLoop, hp, List.filter_cons, ih c hc]

theorem refresh_good_eq (fetchRes : String → Option (List String))
    (ok : String → Bool) (now : Int) :
    (refresh fetchRes ok now).good =
      (((grab fetchRes PROXY_SOURCES).take MAX_TEST).filter ok).take MAX_GOOD := by
  have h : (0 : Nat) < MAX_GOOD := by norm_num [MAX_GOOD]
  simp [refresh, refreshLoop_eq ok _ 0 h]

theorem refresh_good_nodup (fetchRes : String → Option (List String))
    (ok : String → Bool) (now : Int) : (refresh fetchRes ok now).good.Nodup := by
  rw [refresh_good_eq]
  exact ((((grab_nodup fetchRes PROXY_SOURCES).sublist
    (List.take_sublist _ _)).filter ok).sublist (List.take_sublist _ _))

theorem get_mem_good (fetchRes : String → Option (List String))
    (ok : String → Bool) (now : Int) (idx : Nat) (p : Pool) (a : String)
    (h : (get fetchRes ok now idx p).1 = some a) :
    a ∈ (refresh_if_needed fetchRes ok now p).good := by
  simp only [get] at h
  split at h
  · cases h
  · rw [Option.some.injEq] at h
    exact h ▸ List.get_mem _ _ _

end proxy_pool

/-- C5: banning an address removes it from the Verified list immediately
and does not start a rebuild (the generation stamp is untouched); `get`
only draws from the Verified list, so within the same pool generation (the
pool is still fresh and nonempty, hence `get` does not rebuild) `ban(x)`
followed by `get()` never returns `x`.  The Nodup hypothesis on `_good` is
the invariant every `_refresh` establishes (last conjunct). -/
theorem C5_ban_then_get_never_returns (p : proxy_pool.Pool) (x : String) (now : Int)
    (idx : Nat) (fetchRes : String → Option (List String)) (ok : String → Bool)
    (hnd : p.good.Nodup) (hfresh : now - p.lastRefresh ≤ proxy_pool.REFRESH_EVERY)
    (hne : (proxy_pool.ban x p).good ≠ []) :
    x ∉ (proxy_pool.ban x p).good ∧ (proxy_pool.ban x p).lastRefresh = p.lastRefresh ∧
      (proxy_pool.get fetchRes ok now idx (proxy_pool.ban x p)).1 ≠ some x ∧
      (∀ (f : String → Option (List String)) (o : String → Bool) (t : Int),
        (proxy_pool.refresh f o t).good.Nodup) := by
  have hx : x ∉ (proxy_pool.ban x p).good := by
    by_cases hmem : x ∈ p.good
    · have hg : (proxy_pool.ban x p).good = p.good.erase x := by simp [proxy_pool.ban, hmem]
      rw [hg]
      intro hcon
      exact ((hnd.mem_erase_iff).1 hcon).1 rfl
    · have hg : (proxy_pool.ban x p).good = p.good := by simp [proxy_pool.ban, hmem]
      rw [hg]
      exact hmem
  refine ⟨hx, rfl, ?_, fun f o t => proxy_pool.refresh_good_nodup f o t⟩
  have hcond : ¬ ((proxy_pool.ban x p).good = [] ∨ proxy_pool.REFRESH_EVERY < now - (proxy_pool.ban x p).lastRefresh) := by
    push_neg
    refine ⟨hne, ?_⟩
    have : (proxy_pool.ban x p).lastRefresh = p.lastRefresh := rfl
    rw [this]
    exact hfresh
  have hrin : proxy_pool.refresh_if_needed fetchRes ok now (proxy_pool.ban x p) = proxy_pool.ban x p := by
    rw [proxy_pool.refresh_if_needed, if_neg hcond]
  intro hcon
  have hmem := proxy_pool.get_mem_good fetchRes ok now idx (proxy_pool.ban x p) x hcon
  rw [hrin] at hmem
  exact hx hmem

/-- Witness for C5 at a concrete two-address pool. -/
theorem C5_ban_then_get_never_returns_witness :
    "http://1.2.3.4:80" ∉ (proxy_pool.ban "http://1.2.3.4:80" ⟨["http://1.2.3.4:80", "http://5.6.7.8:80"], [], 0⟩).good ∧
    (proxy_pool.ban "http://1.2.3.4:80" ⟨["http://1.2.3.4:80", "http://5.6.7.8:80"], [], 0⟩).lastRefresh = (0 : Int) ∧
    (proxy_pool.get (fun _ => some []) (fun _ => true) 10 0
        (proxy_pool.ban "http://1.2.3.4:80" ⟨["http://1.2.3.4:80", "http://5.6.7.8:80"], [], 0⟩)).1 ≠
      some "http://1.2.3.4:80" ∧
    (∀ (f : String → Option (List String)) (o : String → Bool) (t : Int),
      (proxy_pool.refresh f o t).good.Nodup) :=
  C5_ban_then_get_never_returns ⟨["http://1.2.3.4:80", "http://5.6.7.8:80"], [], 0⟩
    "http://1.2.3.4:80" 10 0 (fun _ => some []) (fun _ => true)
    (by decide) (by decide) (by decide)

/-- C9 counterexample: `_grab` iterates over ALL configured feeds
unconditionally — with the narrow India-filtered feed yielding a candidate,
the broader global feed's candidate still ends up in the candidate set, so
the fallback feed is NOT "consulted only if the narrow feed yields
nothing". -/
theorem C9_counterexample_fallback_always_consulted :
    "http://1.1.1.1:8080" ∈ proxy_pool.grab c9FetchRes proxy_pool.PROXY_SOURCES ∧
    "http://2.2.2.2:8080" ∈ proxy_pool.grab c9FetchRes proxy_pool.PROXY_SOURCES := by
  decide

/-- C9 amended: a rebuild pulls candidates from every configured feed
unconditionally (the India-filtered feeds merely come first in the list)
and unions them; every candidate comes from a feed line surviving
normalisation (socks-tagged lines are discarded); the candidate set is
duplicate-free; at most `MAX_TEST = 500` candidates are tested; and the
verified list is the first at-most-`MAX_GOOD = 50` candidates that pass
verification, in candidate order (stop at the target or on exhaustion). -/
theorem C9_amended_rebuild_contract :
    (∀ (fetchRes : String → Option (List String)) (urls : List String),
        (proxy_pool.grab fetchRes urls).Nodup) ∧
    (∀ (fetchRes : String → Option (List String)) (urls : List String)
        (u : String) (lines : List String) (raw a : String),
        u ∈ urls → fetchRes u = some lines → raw ∈ lines →
        proxy_pool.normLine raw = some a →
        a ∈ proxy_pool.grab fetchRes urls) ∧
    (∀ (fetchRes : String → Option (List String)) (urls : List String)
        (a : String), a ∈ proxy_pool.grab fetchRes urls →
        ∃ raw, proxy_pool.normLine raw = some a) ∧
    (∀ (raw a : String), proxy_pool.normLine raw = some a →
        proxy_pool.socksIn (pyStrip raw) = false) ∧
    (∀ (fetchRes : String → Option (List String)) (ok : String → Bool) (now : Int),
        ((proxy_pool.grab fetchRes proxy_pool.PROXY_SOURCES).take
            proxy_pool.MAX_TEST).length ≤ proxy_pool.MAX_TEST ∧
        (proxy_pool.refresh fetchRes ok now).good =
          (((proxy_pool.grab fetchRes proxy_pool.PROXY_SOURCES).take
              proxy_pool.MAX_TEST).filter ok).take proxy_pool.MAX_GOOD ∧
        (proxy_pool.refresh fetchRes ok now).good.length ≤ proxy_pool.MAX_GOOD) := by
  refine ⟨proxy_pool.grab_nodup, ?_, ?_, ?_, ?_⟩
  · intro fetchRes urls u lines raw a hu hf hr hn
    exact (proxy_pool.grab_mem fetchRes urls a).2 ⟨u, hu, lines, hf, raw, hr, hn⟩
  · intro fetchRes urls a ha
    obtain ⟨u, _, lines, _, raw, _, hn⟩ := (proxy_pool.grab_mem fetchRes urls a).1 ha
    exact ⟨raw, hn⟩
  · intro raw a h
    rw [proxy_pool.normLine] at h
    split_ifs at h with h1 h2 h3
    · exact Bool.not_eq_true _ ▸ h2
    · exact Bool.not_eq_true _ ▸ h2
  · intro fetchRes ok now
    refine ⟨List.length_take_le _ _, proxy_pool.refresh_good_eq fetchRes ok now, ?_⟩
    rw [proxy_pool.refresh_good_eq]
    exact List.length_take_le _ _

/-- Witness for the amended C9 contract: a line of the global fallback feed
survives normalisation and lands in the candidate set even though the
narrow feed was nonempty. -/
theorem C9_amended_rebuild_contract_witness :
    "http://2.2.2.2:8080" ∈ proxy_pool.grab c9FetchRes proxy_pool.PROXY_SOURCES :=
  C9_amended_rebuild_contract.2.1 c9FetchRes proxy_pool.PROXY_SOURCES
    "https://api.proxyscrape.com/v2/?request=getproxies&protocol=http&timeout=7000&format=txt"
    ["2.2.2.2:8080"] "2.2.2.2:8080" "http://2.2.2.2:8080"
    (by decide) (by decide) (by decide) (by decide)

theorem c3Id_injective : Function.Injective c3Id := by
  intro a b h
  have hrep : List.replicate (a + 1) 'a' = List.replicate (b + 1) 'a' :=
    congrArg String.data h
  have hlen := congrArg List.length hrep
  simp at hlen
  omega

theorem c3State_nodup : c3State.Nodup :=
  (List.nodup_range 500).map c3Id_injective

theorem c3Notice_id_not_mem : c3Notice.id ∉ c3State := by
  intro h
  obtain ⟨i, _, heq⟩ := List.mem_map.1 h
  have hdata : List.replicate (i + 1) 'a' = c3Notice.id.data :=
    congrArg String.data heq
  have hm : c3Notice.id.data.head? = some 'm' := by decide
  rw [List.replicate_succ] at hdata
  have hhead := congrArg List.head? hdata
  rw [hm] at hhead
  simp at hhead

theorem c3State_length : c3State.length = 500 := by
  simp [c3State]

/-- C3 refutation at a concrete failing input: the persisted state already
holds 500 identities, the cycle fetches one genuinely new notice and the
collaborator succeeds, so its identity is recorded in the in-memory seen
set, yet with a set-enumeration order that is merely a permutation of the
insertion order (here: reversal, a legitimate behaviour of Python's
hash-ordered `list(set)`), the `[-500:]` slice evicts exactly that
just-delivered identity while the oldest-inserted identity `c3Id 0`
survives — contradicting oldest-inserted-first eviction and the guarantee
that an identity delivered during the cycle is persisted. -/
theorem C3_fresh_delivery_evicted :
    (∀ l : List String, (List.reverse l).Perm l) ∧
    c3Notice.id ∈ (sendLoop (fun _ => true) 0 (newNotices (dedup c3State) [c3Notice])
        (dedup c3State) (dedup [])).mainIds ∧
    c3Notice.id ∉ (monitor_cycle (fun _ => true) List.reverse c3State [] [c3Notice] []).1 ∧
    c3Id 0 ∈ (monitor_cycle (fun _ => true) List.reverse c3State [] [c3Notice] []).1 := by
  have hded : dedup c3State = c3State := dedup_eq_self c3State_nodup
  have hd0 : dedup ([] : List String) = [] := rfl
  have hnm : c3Notice.id ∉ c3State := c3Notice_id_not_mem
  have hnew : newNotices c3State [c3Notice] = [c3Notice] := by
    simp [newNotices, hnm]
  have hnr : newNotices ([] : List String) ([] : List Notice) = [] := rfl
  have hsrc : c3Notice.src = "Main SSC" := rfl
  have hsend : (sendLoop (fun _ => true) 0 [c3Notice] c3State []).mainIds
      = c3State ++ [c3Notice.id] := by
    simp [sendLoop, hsrc, addSet_of_not_mem hnm]
  have hmem0 : c3Id 0 ∈ c3State := by
    rw [c3State]
    exact List.mem_map_of_mem c3Id (by simp)
  have hmc : (monitor_cycle (fun _ => true) List.reverse c3State [] [c3Notice] []).1
      = List.reverse c3State := by
    simp only [monitor_cycle, hded, hd0, hnew, hnr, List.append_nil]
    rw [hsend, List.reverse_append]
    have hlen : ([c3Notice.id].reverse ++ c3State.reverse).length = 501 := by
      simp [c3State_length]
    simp [lastN, hlen]
    simp [c3State_length]
  refine ⟨fun l => List.reverse_perm l, ?_, ?_, ?_⟩
  · rw [hded, hd0, hnew, hsend]
    simp
  · rw [hmc]
    simpa using hnm
  · rw [hmc]
    simpa using hmem0

/-- C1: in a cycle with three new notices of the main source where the
collaborator succeeds on the 1st and 3rd delivery and fails on the 2nd,
exactly the 1st and 3rd identities are persisted and the 2nd is absent
(so it is retried next cycle); the failure neither aborts the loop (the 3rd
notice is still delivered and committed) nor disturbs the other commits.
The persisted-state hypotheses keep the seen set under the 500 bound so the
`[-500:]` slice is the identity, and `listEnum` may be any enumeration
Python's `list(set)` could produce (any permutation). -/
theorem C1_partial_failure_commits (listEnum : List String → List String)
    (hE : ∀ l : List String, (listEnum l).Perm l)
    (sm : List String) (hsm : sm.length ≤ 497)
    (n1 n2 n3 : Notice) (sendRes : Nat → Bool)
    (hs1 : n1.src = "Main SSC") (hs2 : n2.src = "Main SSC") (hs3 : n3.src = "Main SSC")
    (hm1 : n1.id ∉ sm) (hm2 : n2.id ∉ sm) (hm3 : n3.id ∉ sm)
    (h21 : n2.id ≠ n1.id) (h23 : n2.id ≠ n3.id)
    (hr0 : sendRes 0 = true) (hr1 : sendRes 1 = false) (hr2 : sendRes 2 = true) :
    n1.id ∈ (monitor_cycle sendRes listEnum sm [] [n1, n2, n3] []).1 ∧
    n3.id ∈ (monitor_cycle sendRes listEnum sm [] [n1, n2, n3] []).1 ∧
    n2.id ∉ (monitor_cycle sendRes listEnum sm [] [n1, n2, n3] []).1 := by
  have hd0 : dedup ([] : List String) = [] := rfl
  have hnr : newNotices ([] : List String) ([] : List Notice) = [] := rfl
  have hm1d : n1.id ∉ dedup sm := fun h => hm1 (mem_dedup.1 h)
  have hm2d : n2.id ∉ dedup sm := fun h => hm2 (mem_dedup.1 h)
  have hm3d : n3.id ∉ dedup sm := fun h => hm3 (mem_dedup.1 h)
  have hnew : newNotices (dedup sm) [n1, n2, n3] = [n1, n2, n3] := by
    simp [newNotices, hm1d, hm2d, hm3d]
  have hsend : (sendLoop sendRes 0 [n1, n2, n3] (dedup sm) []).mainIds
      = addSet n3.id (addSet n1.id (dedup sm)) := by
    simp [sendLoop, hr0, hr1, hr2, hs1, hs3]
  have hlen : (addSet n3.id (addSet n1.id (dedup sm))).length ≤ 499 := by
    have h1 := length_addSet n3.id (addSet n1.id (dedup sm))
    have h2 := length_addSet n1.id (dedup sm)
    have h3 := dedup_length_le sm
    omega
  have hmc : (monitor_cycle sendRes listEnum sm [] [n1, n2, n3] []).1
      = listEnum (addSet n3.id (addSet n1.id (dedup sm))) := by
    simp only [monitor_cycle, hd0, hnew, hnr, List.append_nil, hsend]
    refine lastN_of_length_le ?_
    rw [(hE _).length_eq]
    omega
  rw [hmc]
  refine ⟨?_, ?_, ?_⟩
  · rw [(hE _).mem_iff, mem_addSet, mem_addSet]
    exact Or.inr (Or.inl rfl)
  · rw [(hE _).mem_iff, mem_addSet]
    exact Or.inl rfl
  · rw [(hE _).mem_iff, mem_addSet, mem_addSet]
    rintro (h | h | h)
    · exact h23 h
    · exact h21 h
    · exact hm2d h

/-- Witness for C1: three concrete notices, collaborator failing exactly on
the second send. -/
theorem C1_partial_failure_commits_witness :
    (apiNotice 3 "Notice Number One Title" "").id ∈
      (monitor_cycle (fun k => !(k == 1)) (fun l => l) []
        [] [apiNotice 3 "Notice Number One Title" "",
            apiNotice 3 "Notice Number Two Title" "",
            apiNotice 3 "Notice Number Three Title" ""] []).1 ∧
    (apiNotice 3 "Notice Number Three Title" "").id ∈
      (monitor_cycle (fun k => !(k == 1)) (fun l => l) []
        [] [apiNotice 3 "Notice Number One Title" "",
            apiNotice 3 "Notice Number Two Title" "",
            apiNotice 3 "Notice Number Three Title" ""] []).1 ∧
    (apiNotice 3 "Notice Number Two Title" "").id ∉
      (monitor_cycle (fun k => !(k == 1)) (fun l => l) []
        [] [apiNotice 3 "Notice Number One Title" "",
            apiNotice 3 "Notice Number Two Title" "",
            apiNotice 3 "Notice Number Three Title" ""] []).1 :=
  C1_partial_failure_commits (fun l => l) (fun l => List.Perm.refl l) []
    (by decide)
    (apiNotice 3 "Notice Number One Title" "")
    (apiNotice 3 "Notice Number Two Title" "")
    (apiNotice 3 "Notice Number Three Title" "")
    (fun k => !(k == 1))
    rfl rfl rfl (by decide) (by decide) (by decide)
    (by decide) (by decide) rfl rfl rfl

/-- C10: the partition into new and already-seen notices is computed once,
before any delivery: two candidates with the same identity, neither in the
seen set, both survive the "new" filter (the filtered list holds at least
two entries with that identity), and the delivery loop makes exactly one
send attempt per entry of the new list — so in-cycle duplicates are both
delivered, and deduplication only acts across cycles. -/
theorem C10_within_cycle_duplicates_delivered (stateMain : List String)
    (l1 l2 l3 : List Notice) (n1 n2 : Notice)
    (hid : n1.id = n2.id) (hmem : n1.id ∉ stateMain) :
    2 ≤ (newNotices (dedup stateMain) (l1 ++ n1 :: l2 ++ n2 :: l3)).countP
          (fun n => n.id == n1.id) ∧
    (∀ (sendRes : Nat → Bool) (k : Nat) (ns : List Notice) (sm sn : List String),
      (sendLoop sendRes k ns sm sn).attempts = ns.length) := by
  constructor
  · have hd : n1.id ∉ dedup stateMain := fun h => hmem (mem_dedup.1 h)
    have hd2 : n2.id ∉ dedup stateMain := by
      rw [← hid]
      exact hd
    have hb1 : (n1.id == n1.id) = true := beq_self_eq_true n1.id
    have hb2 : (n2.id == n1.id) = true := by
      rw [hid]
      exact beq_self_eq_true n2.id
    simp only [newNotices, List.filter_append, List.filter_cons,
      List.countP_append, List.countP_cons]
    simp [hd, hd2, hb1, hb2]
    omega
  · exact fun sendRes k ns sm sn => sendLoop_attempts sendRes ns k sm sn

/-- Witness for C10: the same notice appearing twice in one fetch, empty
prior state. -/
theorem C10_within_cycle_duplicates_delivered_witness :
    2 ≤ (newNotices (dedup []) ([] ++ apiNotice 2 "Duplicated Notice Title" "" ::
          [] ++ apiNotice 2 "Duplicated Notice Title" "" :: [])).countP
          (fun n => n.id == (apiNotice 2 "Duplicated Notice Title" "").id) ∧
    (∀ (sendRes : Nat → Bool) (k : Nat) (ns : List Notice) (sm sn : List String),
      (sendLoop sendRes k ns sm sn).attempts = ns.length) :=
  C10_within_cycle_duplicates_delivered [] [] [] []
    (apiNotice 2 "Duplicated Notice Title" "")
    (apiNotice 2 "Duplicated Notice Title" "")
    rfl (by decide)
